import Mathlib

/-!
Shallow embedding of src/src/physical_plan/physical_expressions.rs: the
physical expression evaluator of a columnar query engine built on the
arrow2 array library.  Machine integers (Rust i32) are modelled as Int
with explicit wrapping; Rust panics are modelled as the outer Option
layer (none = panic); fallible code returns Except Error.
-/

namespace QueryEngine

/-- Data types occurring in the program, a closed set.  The constructor
int64 stands for a representative type outside the supported set
(the source treats every such type through its catch-all match arms). -/
inductive DType
  | int32
  | float64
  | utf8
  | boolean
  | null
  | int64
  deriving DecidableEq, Repr

/-- Rendering of Rust Debug formatting of a DataType value, as produced by
the source at each format call on a data type. -/
def DType.debugStr : DType → String
  | .int32 => "Int32"
  | .float64 => "Float64"
  | .utf8 => "Utf8"
  | .boolean => "Boolean"
  | .null => "Null"
  | .int64 => "Int64"

/-- Rendering of Rust Debug formatting of a PhysicalType value (primitive
types print wrapped in Primitive). -/
def DType.physDebugStr : DType → String
  | .int32 => "Primitive(Int32)"
  | .float64 => "Primitive(Float64)"
  | .utf8 => "Utf8"
  | .boolean => "Boolean"
  | .null => "Null"
  | .int64 => "Primitive(Int64)"

/-- Scalar values of arrow2 as used by the source: typed scalars carry an
optional payload (none encodes the null state); null is the NullScalar
used as the initial accumulator value. -/
inductive PScalar
  | int32 (v : Option Int)
  | float64 (v : Option Float)
  | utf8 (v : Option String)
  | boolean (v : Option Bool)
  | null

/-- The data type carried by a scalar (Scalar::data_type in arrow2). -/
def PScalar.dataType : PScalar → DType
  | .int32 _ => .int32
  | .float64 _ => .float64
  | .utf8 _ => .utf8
  | .boolean _ => .boolean
  | .null => .null

/-- Arrays of arrow2 as used by the source: a list of raw values plus an
optional validity bitmap (none = all rows valid).  The unsupported
constructor stands for a column of a physical type outside the four the
source handles; only its type and length are relevant to the code. -/
inductive PArray
  | int32 (values : List Int) (validity : Option (List Bool))
  | float64 (values : List Float) (validity : Option (List Bool))
  | utf8 (values : List String) (validity : Option (List Bool))
  | boolean (values : List Bool) (validity : Option (List Bool))
  | unsupported (dtype : DType) (len : Nat)

/-- Array length (Array::len). -/
def PArray.len : PArray → Nat
  | .int32 vs _ => vs.length
  | .float64 vs _ => vs.length
  | .utf8 vs _ => vs.length
  | .boolean vs _ => vs.length
  | .unsupported _ n => n

/-- The data type of an array (Array::data_type). -/
def PArray.dataType : PArray → DType
  | .int32 _ _ => .int32
  | .float64 _ _ => .float64
  | .utf8 _ _ => .utf8
  | .boolean _ _ => .boolean
  | .unsupported d _ => d

/-- The validity bitmap of an array (Array::validity). -/
def PArray.validityOf : PArray → Option (List Bool)
  | .int32 _ v => v
  | .float64 _ v => v
  | .utf8 _ v => v
  | .boolean _ v => v
  | .unsupported _ _ => none

/-- Replace the validity bitmap, keeping the values. -/
def PArray.setValidity : PArray → Option (List Bool) → PArray
  | .int32 vs _, v => .int32 vs v
  | .float64 vs _, v => .float64 vs v
  | .utf8 vs _, v => .utf8 vs v
  | .boolean vs _, v => .boolean vs v
  | .unsupported d n, _ => .unsupported d n

/-- Model of arrow2 Array::with_validity: replaces the validity bitmap;
arrow2 panics (none here) when a supplied bitmap has the wrong length. -/
def PArray.withValidity (a : PArray) : Option (List Bool) → Option PArray
  | none => some (a.setValidity none)
  | some v => if v.length = a.len then some (a.setValidity (some v)) else none

/-- Abridged model of Rust Debug formatting of a dyn Array reference, as
the source produces for the DifferentSizes error payloads: a
deterministic description of the operand (type and length). -/
def PArray.debugStr (a : PArray) : String :=
  a.dataType.debugStr ++ "[" ++ toString a.len ++ "]"

/-- ColumnarValue from src/src/columnar_value.rs as used by the source:
either a full column or a single scalar. -/
inductive ColumnarValue
  | array (a : PArray)
  | scalar (s : PScalar)

/-- Error enum from the error module of this repository.  Modelled from
the spec: the error declaration itself is not under src, but every
variant and payload is fixed by its construction sites in
physical_expressions.rs (PrimitiveTypeNotSuported and
PhysicalTypeNotSuported keep the spelling of the source). -/
inductive Error
  | PrimitiveTypeNotSuported (s : String)
  | PhysicalTypeNotSuported (s : String)
  | DowncastError
  | DifferentSizes (l r : String)
  | ArrowError (s : String)

/-- The comparison operators instantiated by the booleanBinaryExpression
macro. -/
inductive CmpOp
  | eq
  | neq
  deriving DecidableEq

/-- The arithmetic operators instantiated by the mathExpression macro. -/
inductive MathOp
  | add
  | sub
  | mul
  | div
  deriving DecidableEq

/-- The aggregate kinds instantiated by the aggregateExpression macro. -/
inductive AggOp
  | max
  | min
  deriving DecidableEq

/-- Wrap an integer to the value range of Rust i32 (release-profile
two-complement wrapping for add, sub and mul). -/
def wrap32 (z : Int) : Int :=
  (z + 2147483648) % 4294967296 - 2147483648

/-- Rust i32 arithmetic as invoked by the Scalar times Scalar arm of the
mathExpression macro: add, sub and mul wrap; division truncates toward
zero and panics (none) on a zero divisor or on the overflowing division
of the minimal value by minus one. -/
def i32binop : MathOp → Int → Int → Option Int
  | .add, a, b => some (wrap32 (a + b))
  | .sub, a, b => some (wrap32 (a - b))
  | .mul, a, b => some (wrap32 (a * b))
  | .div, a, b =>
      if b = 0 ∨ (a = -2147483648 ∧ b = -1) then none else some (Int.tdiv a b)

/-- Rust f64 arithmetic (IEEE-754, total). -/
def f64binop : MathOp → Float → Float → Float
  | .add, a, b => Float.add a b
  | .sub, a, b => Float.sub a b
  | .mul, a, b => Float.mul a b
  | .div, a, b => Float.div a b

/-- Lift an eq test to the operator of a comparison node (ne is the
negation of eq, as for Rust PartialEq). -/
def CmpOp.apply : CmpOp → Bool → Bool
  | .eq, b => b
  | .neq, b => !b

/-- Equality of optional payloads as arrow2 compares scalar values: both
null compares equal, null against non-null compares unequal. -/
def optBeq (f : α → α → Bool) : Option α → Option α → Bool
  | none, none => true
  | some a, some b => f a b
  | _, _ => false

/-- Model of arrow2 PartialEq on dyn Scalar, used by the Scalar times
Scalar arm of booleanBinaryExpression: equal when data types match and
the values (including the null state) match; Float compares by IEEE
equality. -/
def scalarBeq : PScalar → PScalar → Bool
  | .int32 a, .int32 b => optBeq (fun x y => decide (x = y)) a b
  | .float64 a, .float64 b => optBeq Float.beq a b
  | .utf8 a, .utf8 b => optBeq (fun x y => decide (x = y)) a b
  | .boolean a, .boolean b => optBeq (fun x y => x == y) a b
  | .null, .null => true
  | _, _ => false

/-- Direct scalar comparison performed by the Scalar times Scalar arm of
the comparison nodes. -/
def cmpScalars (op : CmpOp) (l r : PScalar) : Bool :=
  op.apply (scalarBeq l r)

/-- Model of arrow2 combine_validities: the resulting validity of an
elementwise kernel over two arrays. -/
def combineValidities : Option (List Bool) → Option (List Bool) → Option (List Bool)
  | some a, some b => some (List.zipWith and a b)
  | some a, none => some a
  | none, some b => some b
  | none, none => none

/-- Model of the arrow2 elementwise comparison kernel over two arrays of
equal length (compute comparison eq and neq): panics (none) when the
operand data types differ or are unsupported; otherwise compares raw
values elementwise and intersects the validities. -/
def cmpKernelArr (op : CmpOp) : PArray → PArray → Option PArray
  | .int32 xs xv, .int32 ys yv =>
      some (.boolean (List.zipWith (fun a b => op.apply (decide (a = b))) xs ys)
        (combineValidities xv yv))
  | .float64 xs xv, .float64 ys yv =>
      some (.boolean (List.zipWith (fun a b => op.apply (Float.beq a b)) xs ys)
        (combineValidities xv yv))
  | .utf8 xs xv, .utf8 ys yv =>
      some (.boolean (List.zipWith (fun a b => op.apply (decide (a = b))) xs ys)
        (combineValidities xv yv))
  | .boolean xs xv, .boolean ys yv =>
      some (.boolean (List.zipWith (fun a b => op.apply (a == b)) xs ys)
        (combineValidities xv yv))
  | _, _ => none

/-- Model of the arrow2 array against scalar comparison kernel
(compute comparison eq_scalar and neq_scalar): panics (none) when the
data types differ or are unsupported; a null scalar yields an all-null
boolean result; otherwise compares every raw value to the scalar,
keeping the validity of the array. -/
def cmpKernelScalar (op : CmpOp) : PArray → PScalar → Option PArray
  | .int32 xs xv, .int32 sv =>
      match sv with
      | some v => some (.boolean (xs.map (fun x => op.apply (decide (x = v)))) xv)
      | none => some (.boolean (List.replicate xs.length false)
          (some (List.replicate xs.length false)))
  | .float64 xs xv, .float64 sv =>
      match sv with
      | some v => some (.boolean (xs.map (fun x => op.apply (Float.beq x v))) xv)
      | none => some (.boolean (List.replicate xs.length false)
          (some (List.replicate xs.length false)))
  | .utf8 xs xv, .utf8 sv =>
      match sv with
      | some v => some (.boolean (xs.map (fun x => op.apply (decide (x = v)))) xv)
      | none => some (.boolean (List.replicate xs.length false)
          (some (List.replicate xs.length false)))
  | .boolean xs xv, .boolean sv =>
      match sv with
      | some v => some (.boolean (xs.map (fun x => op.apply (x == v))) xv)
      | none => some (.boolean (List.replicate xs.length false)
          (some (List.replicate xs.length false)))
  | _, _ => none

/-- Collect a list of possibly panicking element results: none as soon as
one element panics. -/
def optList : List (Option α) → Option (List α)
  | [] => some []
  | none :: _ => none
  | some x :: xs => (optList xs).map (x :: ·)

/-- Model of the arrow2 elementwise arithmetic kernel over two arrays of
equal length (compute arithmetics add, sub, mul, div): panics (none) on
unsupported or mismatched operand types and on an elementwise integer
division panic; the kernel applies the operator to every raw value,
valid or not, and intersects the validities. -/
def arithKernelArr (op : MathOp) : PArray → PArray → Option PArray
  | .int32 xs xv, .int32 ys yv =>
      (optList (List.zipWith (i32binop op) xs ys)).map
        (fun vs => .int32 vs (combineValidities xv yv))
  | .float64 xs xv, .float64 ys yv =>
      some (.float64 (List.zipWith (f64binop op) xs ys) (combineValidities xv yv))
  | _, _ => none

/-- Model of the arrow2 array against scalar arithmetic kernel
(compute arithmetics add_scalar, sub_scalar, mul_scalar, div_scalar):
the scalar is always the right-hand operand of the elementwise
operation; a null scalar yields an all-null result; panics (none) on
unsupported or mismatched types and on integer division panics. -/
def arithKernelScalar (op : MathOp) : PArray → PScalar → Option PArray
  | .int32 xs xv, .int32 sv =>
      match sv with
      | some v => (optList (xs.map (fun x => i32binop op x v))).map
          (fun vs => .int32 vs xv)
      | none => some (.int32 xs (some (List.replicate xs.length false)))
  | .float64 xs xv, .float64 sv =>
      match sv with
      | some v => some (.float64 (xs.map (fun x => f64binop op x v)) xv)
      | none => some (.float64 xs (some (List.replicate xs.length false)))
  | _, _ => none

/-- Downcast step of ColumnExpression::evaluate: the four supported
physical types are cloned and wrapped as an Array columnar value; any
other physical type falls to the catch-all arm (none). -/
def columnSupported : PArray → Option ColumnarValue
  | .int32 vs v => some (.array (.int32 vs v))
  | .float64 vs v => some (.array (.float64 vs v))
  | .utf8 vs v => some (.array (.utf8 vs v))
  | .boolean vs v => some (.array (.boolean vs v))
  | .unsupported _ _ => none

/-- ColumnExpression::evaluate: fetch column index from the batch (Option),
dispatch on its physical type, and turn the combined Option into a
Result whose error is always PrimitiveTypeNotSuported with the Debug
rendering of Int32, whatever the actual cause. -/
def evalColumn (index : Nat) (input : List PArray) : Except Error ColumnarValue :=
  match (input[index]?).bind columnSupported with
  | some v => .ok v
  | none => .error (.PrimitiveTypeNotSuported DType.int32.debugStr)

/-- Scalar times Scalar arm of the mathExpression macro: dispatch on the
physical types of the two scalars; only Float64 with Float64 and Int32
with Int32 are supported, every other pairing is a
PrimitiveTypeNotSuported error naming the Debug rendering of the left
data type; for a supported pairing a null operand propagates to a null
result of the same type, and two present values take the arithmetic
result (whose integer panics surface as none). -/
def mathScalarScalar (op : MathOp) (l r : PScalar) : Option (Except Error ColumnarValue) :=
  match l, r with
  | .float64 lv, .float64 rv =>
      some (.ok (.scalar (.float64 (match lv, rv with
        | some a, some b => some (f64binop op a b)
        | _, _ => none))))
  | .int32 lv, .int32 rv =>
      match lv, rv with
      | some a, some b => (i32binop op a b).map (fun v => .ok (.scalar (.int32 (some v))))
      | _, _ => some (.ok (.scalar (.int32 none)))
  | l, _ => some (.error (.PrimitiveTypeNotSuported l.dataType.debugStr))

/-- Variant dispatch of the booleanBinaryExpression macro after both
children have evaluated: Array with Array checks lengths then runs the
elementwise kernel; Array with Scalar runs the scalar kernel; Scalar
with Array swaps and runs the same scalar kernel with the array first;
Scalar with Scalar compares directly into a boolean scalar. -/
def boolCombine (op : CmpOp) : ColumnarValue → ColumnarValue → Option (Except Error ColumnarValue)
  | .array left, .array right =>
      if left.len = right.len then
        (cmpKernelArr op left right).map (fun b => .ok (.array b))
      else
        some (.error (.DifferentSizes left.debugStr right.debugStr))
  | .array left, .scalar right =>
      (cmpKernelScalar op left right).map (fun b => .ok (.array b))
  | .scalar left, .array right =>
      (cmpKernelScalar op right left).map (fun b => .ok (.array b))
  | .scalar left, .scalar right =>
      some (.ok (.scalar (.boolean (some (cmpScalars op left right)))))

/-- Variant dispatch of the mathExpression macro after both children have
evaluated: Array with Array checks lengths then runs the elementwise
kernel; both mixed arms call the array-scalar kernel with the array as
first argument (also in the Scalar with Array case); Scalar with Scalar
delegates to the typed scalar arithmetic. -/
def mathCombine (op : MathOp) : ColumnarValue → ColumnarValue → Option (Except Error ColumnarValue)
  | .array left, .array right =>
      if left.len = right.len then
        (arithKernelArr op left right).map (fun a => .ok (.array a))
      else
        some (.error (.DifferentSizes left.debugStr right.debugStr))
  | .array left, .scalar right =>
      (arithKernelScalar op left right).map (fun a => .ok (.array a))
  | .scalar left, .array right =>
      (arithKernelScalar op right left).map (fun a => .ok (.array a))
  | .scalar left, .scalar right => mathScalarScalar op left right

/-- The physical expression tree: column references, the four literal
expressions (whose constructors always store a present value), the
comparison nodes and the arithmetic nodes. -/
inductive PExpr
  | column (index : Nat)
  | litBool (b : Bool)
  | litStr (s : String)
  | litInt (v : Int)
  | litFloat (v : Float)
  | cmp (op : CmpOp) (l r : PExpr)
  | math (op : MathOp) (l r : PExpr)

/-- PhysicalExpression::evaluate over a batch: literals ignore the batch;
binary nodes evaluate left then right, propagating child errors
unchanged, then dispatch on the variant pairing.  The outer Option is
the panic layer. -/
def evalExpr : PExpr → List PArray → Option (Except Error ColumnarValue)
  | .column i, input => some (evalColumn i input)
  | .litBool b, _ => some (.ok (.scalar (.boolean (some b))))
  | .litStr s, _ => some (.ok (.scalar (.utf8 (some s))))
  | .litInt v, _ => some (.ok (.scalar (.int32 (some v))))
  | .litFloat v, _ => some (.ok (.scalar (.float64 (some v))))
  | .cmp op l r, input =>
      match evalExpr l input with
      | none => none
      | some (.error e) => some (.error e)
      | some (.ok lv) =>
        match evalExpr r input with
        | none => none
        | some (.error e) => some (.error e)
        | some (.ok rv) => boolCombine op lv rv
  | .math op l r, input =>
      match evalExpr l input with
      | none => none
      | some (.error e) => some (.error e)
      | some (.ok lv) =>
        match evalExpr r input with
        | none => none
        | some (.error e) => some (.error e)
        | some (.ok rv) => mathCombine op lv rv

/-- Accumulator state generated by the aggregateExpression macro: a
running scalar value and the bound column index. -/
structure AccState where
  value : PScalar
  index : Nat

/-- PhysicalAggregateExpression::create_accumulator: a fresh accumulator
holds the NullScalar and the given index. -/
def createAccumulator (index : Nat) : AccState :=
  { value := .null, index := index }

/-- Comparison on present values used by the accumulator: gt for Max and
lt for Min, applied as candidate against stored. -/
def aggIntCmp : AggOp → Int → Int → Bool
  | .max, l, r => decide (l > r)
  | .min, l, r => decide (l < r)

/-- Float comparison used by the accumulator (Rust f64 gt and lt). -/
def aggFloatCmp : AggOp → Float → Float → Bool
  | .max, l, r => decide (r < l)
  | .min, l, r => decide (l < r)

/-- Comparison step of Accumulator::accumulate: dispatch on the physical
types of the candidate and the stored value; only Float64 with Float64
and Int32 with Int32 are handled (on a null payload the downcast of the
value fails with DowncastError); every other pairing, in particular any
comparison against the initial NullScalar, is a PrimitiveTypeNotSuported
error naming the Debug rendering of the candidate data type. -/
def accCompare (op : AggOp) (cand stored : PScalar) : Except Error Bool :=
  match cand, stored with
  | .float64 lv, .float64 rv =>
      match lv, rv with
      | some l, some r => .ok (aggFloatCmp op l r)
      | _, _ => .error .DowncastError
  | .int32 lv, .int32 rv =>
      match lv, rv with
      | some l, some r => .ok (aggIntCmp op l r)
      | _, _ => .error .DowncastError
  | cand, _ => .error (.PrimitiveTypeNotSuported cand.dataType.debugStr)

/-- Replacement step of Accumulator::accumulate: keep the candidate when
the comparison holds, else keep the stored value; comparison errors
propagate and leave the state unchanged on the Rust side. -/
def applyCandidate (op : AggOp) (acc : AccState) (cand : PScalar) : Except Error AccState :=
  match accCompare op cand acc.value with
  | .error e => .error e
  | .ok b => .ok (if b then { acc with value := cand } else acc)

/-- Rows of a column that survive a validity bitmap (no bitmap keeps every
row). -/
def maskedVals (xs : List α) : Option (List Bool) → List α
  | none => xs
  | some v => (xs.zip v).filterMap (fun p => if p.2 then some p.1 else none)

/-- Reduce the valid rows of an integer column (model of the arrow2 min
and max primitive reduction: none when no valid row remains). -/
def reduceIntList (op : AggOp) : List Int → Option Int
  | [] => none
  | x :: xs => some (xs.foldl (fun a b => match op with
      | .max => if a ≤ b then b else a
      | .min => if b ≤ a then b else a) x)

/-- Reduce the valid rows of a float column (model of the arrow2 min and
max primitive reduction). -/
def reduceFloatList (op : AggOp) : List Float → Option Float
  | [] => none
  | x :: xs => some (xs.foldl (fun a b => match op with
      | .max => if decide (a < b) then b else a
      | .min => if decide (b < a) then b else a) x)

/-- Model of the arrow2 min and max reduction kernel over a dyn Array as
invoked by Accumulator::accumulate: primitive Int32 and Float64 columns
reduce over their valid rows into a scalar of the same type; other types
surface the arrow error wrapped by the source as ArrowError. -/
def aggKernel (op : AggOp) : PArray → Except Error PScalar
  | .int32 xs v => .ok (.int32 (reduceIntList op (maskedVals xs v)))
  | .float64 xs v => .ok (.float64 (reduceFloatList op (maskedVals xs v)))
  | a => .error (.ArrowError ("min or max is not supported for " ++ a.dataType.debugStr))

/-- Array arm of Accumulator::accumulate: combine the validity of the
array with the supplied bitmap by logical AND (the arrow2 bitmap AND
panics on a length mismatch, as does with_validity), then reduce the
surviving rows with the aggregate kernel. -/
def arrayCandidate (op : AggOp) (arr : PArray) (mask : Option (List Bool)) :
    Option (Except Error PScalar) :=
  match (match arr.validityOf, mask with
    | some v1, some v2 =>
        if v1.length = v2.length then some (some (List.zipWith and v1 v2)) else none
    | some v1, none => some (some v1)
    | none, some v2 => some (some v2)
    | none, none => some (none : Option (List Bool))) with
  | none => none
  | some val =>
    match arr.withValidity val with
    | none => none
    | some arr2 => some (aggKernel op arr2)

/-- Scalar arm of Accumulator::accumulate: Float64 and Int32 scalars are
downcast and cloned as the candidate; any other physical type is a
PhysicalTypeNotSuported error naming the Debug rendering of that
physical type. -/
def scalarCandidate : PScalar → Except Error PScalar
  | .float64 v => .ok (.float64 v)
  | .int32 v => .ok (.int32 v)
  | s => .error (.PhysicalTypeNotSuported s.dataType.physDebugStr)

/-- Accumulator::accumulate: the unchecked indexing of the input vector
panics (none) when the bound index is out of range; an Array input goes
through mask combination and reduction, a Scalar input through the type
check; the candidate then runs the compare-and-replace step.  Errors
leave the stored value unchanged on the Rust side. -/
def accumulate (op : AggOp) (acc : AccState) (input : List ColumnarValue)
    (mask : Option (List Bool)) : Option (Except Error AccState) :=
  match input[acc.index]? with
  | none => none
  | some (.array arr) =>
    match arrayCandidate op arr mask with
    | none => none
    | some (.error e) => some (.error e)
    | some (.ok cand) => some (applyCandidate op acc cand)
  | some (.scalar s) =>
    match scalarCandidate s with
    | .error e => some (.error e)
    | .ok cand => some (applyCandidate op acc cand)

/-- Accumulator::final_value: wrap the running scalar as a Scalar columnar
value, consuming the accumulator. -/
def finalValue (acc : AccState) : Except Error ColumnarValue :=
  .ok (.scalar acc.value)

/-! Theorems settling the claims. -/

/-- C4: for every comparison operator, array A and scalar S, evaluating
the node with children (A, S) and with children (S, A) produces the same
columnar value, because the Scalar with Array case swaps its operands
before calling the array-vs-scalar comparison kernel. -/
theorem cmp_broadcast_symmetric (op : CmpOp) (A : PArray) (S : PScalar) :
    boolCombine op (.array A) (.scalar S) = boolCombine op (.scalar S) (.array A) := rfl

/-- C8: when both children of an Eq or Neq node evaluate to scalars, the
result is a boolean Scalar columnar value obtained by direct value
comparison, never a one-element boolean array. -/
theorem cmp_scalar_scalar_yields_boolean_scalar (op : CmpOp) (l r : PScalar) :
    boolCombine op (.scalar l) (.scalar r)
      = some (.ok (.scalar (.boolean (some (cmpScalars op l r))))) := rfl

/-- C5: for arrays of different lengths, every binary comparison and
arithmetic node fails with DifferentSizes carrying the descriptions of
both operands, producing no partial output. -/
theorem array_length_mismatch_fails (A B : PArray) (h : A.len ≠ B.len) :
    (∀ op : CmpOp, boolCombine op (.array A) (.array B)
        = some (.error (.DifferentSizes A.debugStr B.debugStr)))
    ∧ (∀ op : MathOp, mathCombine op (.array A) (.array B)
        = some (.error (.DifferentSizes A.debugStr B.debugStr))) := by
  constructor <;> intro op <;> simp [boolCombine, mathCombine, h]

/-- Witness for C5 at concrete arrays of lengths 1 and 0. -/
theorem array_length_mismatch_fails_witness :
    (PArray.int32 [1] none).len ≠ (PArray.int32 [] none).len
    ∧ boolCombine .eq (.array (.int32 [1] none)) (.array (.int32 [] none))
        = some (.error (.DifferentSizes (PArray.int32 [1] none).debugStr
            (PArray.int32 [] none).debugStr))
    ∧ mathCombine .add (.array (.int32 [1] none)) (.array (.int32 [] none))
        = some (.error (.DifferentSizes (PArray.int32 [1] none).debugStr
            (PArray.int32 [] none).debugStr)) :=
  ⟨by decide,
   (array_length_mismatch_fails (.int32 [1] none) (.int32 [] none) (by decide)).1 .eq,
   (array_length_mismatch_fails (.int32 [1] none) (.int32 [] none) (by decide)).2 .add⟩

/-- C7: an arithmetic node over two scalars whose physical types both lie
outside Int32 and Float64 fails with the PrimitiveTypeNotSuported error
(naming the left data type), never a panic. -/
theorem unsupported_scalar_arith_rejected (op : MathOp) (l r : PScalar)
    (hl1 : l.dataType ≠ .int32) (hl2 : l.dataType ≠ .float64)
    (hr1 : r.dataType ≠ .int32) (hr2 : r.dataType ≠ .float64) :
    mathScalarScalar op l r
      = some (.error (.PrimitiveTypeNotSuported l.dataType.debugStr)) := by
  cases l <;> cases r <;> simp_all [mathScalarScalar, PScalar.dataType]

/-- Witness for C7 at two Utf8 scalars under Add. -/
theorem unsupported_scalar_arith_rejected_witness :
    (PScalar.utf8 (some "a")).dataType ≠ DType.int32
    ∧ mathScalarScalar .add (.utf8 (some "a")) (.utf8 (some "b"))
        = some (.error (.PrimitiveTypeNotSuported
            (PScalar.utf8 (some "a")).dataType.debugStr)) :=
  ⟨by decide,
   unsupported_scalar_arith_rejected .add (.utf8 (some "a")) (.utf8 (some "b"))
     (by decide) (by decide) (by decide) (by decide)⟩

/-- C9: ColumnExpression evaluation returns one and the same error for an
out-of-range column index and for a column of an unsupported physical
type, and its description is always the Debug text of Int32. -/
theorem column_error_conflates_causes (idx : Nat) (input : List PArray) :
    (input.length ≤ idx →
      evalColumn idx input = .error (.PrimitiveTypeNotSuported DType.int32.debugStr))
    ∧ (∀ d n, input[idx]? = some (.unsupported d n) →
      evalColumn idx input = .error (.PrimitiveTypeNotSuported DType.int32.debugStr)) := by
  constructor
  · intro h
    simp [evalColumn, List.getElem?_eq_none h]
  · intro d n h
    simp [evalColumn, h, columnSupported]

/-- Witness for C9: an out-of-range index on an empty batch and an Int64
column both give the error described as Int32. -/
theorem column_error_conflates_causes_witness :
    ([] : List PArray).length ≤ 5
    ∧ evalColumn 5 [] = .error (.PrimitiveTypeNotSuported DType.int32.debugStr)
    ∧ ([PArray.unsupported .int64 3])[0]? = some (.unsupported .int64 3)
    ∧ evalColumn 0 [.unsupported .int64 3]
        = .error (.PrimitiveTypeNotSuported DType.int32.debugStr) :=
  ⟨by decide,
   (column_error_conflates_causes 5 []).1 (by decide),
   rfl,
   (column_error_conflates_causes 0 [.unsupported .int64 3]).2 .int64 3 rfl⟩

/-- C6: in Scalar with Scalar arithmetic over two Int32 or two Float64
scalars, a null operand makes the result the null scalar of the same
type, and two present operands give the typed arithmetic result. -/
theorem scalar_arith_null_propagation (op : MathOp) :
    (∀ a b : Option Int, a = none ∨ b = none →
      mathScalarScalar op (.int32 a) (.int32 b) = some (.ok (.scalar (.int32 none))))
    ∧ (∀ a b : Option Float, a = none ∨ b = none →
      mathScalarScalar op (.float64 a) (.float64 b)
        = some (.ok (.scalar (.float64 none))))
    ∧ (∀ a b v : Int, i32binop op a b = some v →
      mathScalarScalar op (.int32 (some a)) (.int32 (some b))
        = some (.ok (.scalar (.int32 (some v)))))
    ∧ (∀ a b : Float,
      mathScalarScalar op (.float64 (some a)) (.float64 (some b))
        = some (.ok (.scalar (.float64 (some (f64binop op a b)))))) := by
  refine ⟨?_, ?_, ?_, ?_⟩
  · rintro a b (rfl | rfl)
    · cases b <;> rfl
    · cases a <;> rfl
  · rintro a b (rfl | rfl)
    · cases b <;> rfl
    · cases a <;> rfl
  · intro a b v h
    simp [mathScalarScalar, h]
  · intro a b
    rfl

/-- Witness for C6: Add of a null Int32 with 5 gives the null Int32
scalar, and Add of 3 with 4 gives the Int32 scalar 7. -/
theorem scalar_arith_null_propagation_witness :
    mathScalarScalar .add (.int32 none) (.int32 (some 5))
      = some (.ok (.scalar (.int32 none)))
    ∧ mathScalarScalar .add (.int32 (some 3)) (.int32 (some 4))
      = some (.ok (.scalar (.int32 (some 7)))) :=
  ⟨(scalar_arith_null_propagation .add).1 none (some 5) (Or.inl rfl),
   (scalar_arith_null_propagation .add).2.2.1 3 4 7 (by decide)⟩

/-- C10 counterexample: accumulate is not the only evaluation entry point
that can fail without producing a Result: an arithmetic node dividing
the Int32 literal 1 by the Int32 literal 0 panics (integer division by
zero in the Scalar with Scalar arm), yielding no Result at all. -/
theorem div_by_zero_evaluate_panics :
    evalExpr (.math .div (.litInt 1) (.litInt 0)) [] = none := rfl

/-- C10 (amended): for a Min or Max accumulator whose bound index is at
least the length of the input vector, accumulate panics through the
unchecked indexing instead of returning a typed error. -/
theorem accumulate_out_of_bounds_panics (op : AggOp) (acc : AccState)
    (input : List ColumnarValue) (mask : Option (List Bool))
    (h : input.length ≤ acc.index) :
    accumulate op acc input mask = none := by
  simp [accumulate, List.getElem?_eq_none h]

/-- Witness for the amended C10 at a fresh Max accumulator bound to index
2 over an empty input vector. -/
theorem accumulate_out_of_bounds_panics_witness :
    ([] : List ColumnarValue).length ≤ (createAccumulator 2).index
    ∧ accumulate .max (createAccumulator 2) [] none = none :=
  ⟨by decide,
   accumulate_out_of_bounds_panics .max (createAccumulator 2) [] none (by decide)⟩

/-- C1: a fresh accumulator finalizes to the initial null scalar, but the
very first accumulate of a non-null Int32 candidate fails with
PrimitiveTypeNotSuported, for Max and for Min alike, because the
comparison step has no arm for a stored NullScalar; the stored value is
never replaced, so the claimed max or min of the candidates is never
produced. -/
theorem accumulator_null_compare_blocks_replacement :
    finalValue (createAccumulator 0) = .ok (.scalar .null)
    ∧ accumulate .max (createAccumulator 0) [.scalar (.int32 (some 3))] none
        = some (.error (.PrimitiveTypeNotSuported DType.int32.debugStr))
    ∧ accumulate .min (createAccumulator 0) [.scalar (.int32 (some 3))] none
        = some (.error (.PrimitiveTypeNotSuported DType.int32.debugStr)) :=
  ⟨rfl, rfl, rfl⟩

/-- C2: a Sub or Div node with the scalar on the left hands the array to
the array-scalar kernel as its first operand, so Sub(5, [10, 20])
evaluates to [5, 15] (elementwise A - S) instead of the specified
[-5, -15], and Div(10, [5, 2]) evaluates to [0, 0] (A div S) instead of
[2, 5]. -/
theorem scalar_left_sub_div_swapped :
    evalExpr (.math .sub (.litInt 5) (.column 0)) [.int32 [10, 20] none]
      = some (.ok (.array (.int32 [5, 15] none)))
    ∧ evalExpr (.math .div (.litInt 10) (.column 0)) [.int32 [5, 2] none]
      = some (.ok (.array (.int32 [0, 0] none))) :=
  ⟨rfl, rfl⟩

/-- C3: the array arm of accumulate does combine the array validity with
the supplied mask by logical AND before reducing (the candidate over
values [1, 100, 2] with array validity [true, true, false] and mask
[true, false, true] is 1, and over the mask [true, false, true] alone is
2, the masked 100 never contributing), but the full accumulate call on a
fresh Max accumulator then fails in the comparison against the initial
NullScalar, so the claimed final value 2 is never produced. -/
theorem mask_and_combination_blocked_by_null_compare :
    arrayCandidate .max (.int32 [1, 100, 2] (some [true, true, false]))
        (some [true, false, true]) = some (.ok (.int32 (some 1)))
    ∧ arrayCandidate .max (.int32 [1, 100, 2] none) (some [true, false, true])
        = some (.ok (.int32 (some 2)))
    ∧ accumulate .max (createAccumulator 0) [.array (.int32 [1, 100, 2] none)]
        (some [true, false, true])
        = some (.error (.PrimitiveTypeNotSuported DType.int32.debugStr)) :=
  ⟨rfl, rfl, rfl⟩

end QueryEngine
